import Mathlib

/-!
Shallow embedding of the client-side catalog/cart core of the `ecom_web`
repository (`script.js`, shared part of `product-detail.js`).

JavaScript numbers are modelled by `JSNum`: NaN, the two infinities, or an
exact rational standing in for a finite double.  Decimal literals appearing
in the page data are mapped to the corresponding exact rationals; the
`toFixed(2)`/`parseFloat` round-trip of the source is modelled by exact
decimal rounding (`round2q`, round half toward positive infinity, matching
the `toFixed` specification of picking the larger candidate on ties).
-/

/-- A JavaScript number: NaN, +Infinity, -Infinity, or a finite value. -/
inductive JSNum where
  | nan
  | inf
  | ninf
  | fin (q : ℚ)
deriving DecidableEq

namespace JSNum

/-- JS `isNaN` on a number. -/
def isNaN : JSNum → Bool
  | nan => true
  | _ => false

/-- JS `<` on numbers: any comparison with NaN is false. -/
def ltB : JSNum → JSNum → Bool
  | nan, _ => false
  | _, nan => false
  | ninf, ninf => false
  | ninf, inf => true
  | ninf, fin _ => true
  | inf, _ => false
  | fin _, ninf => false
  | fin _, inf => true
  | fin a, fin b => decide (a < b)

/-- JS `<=` on numbers: any comparison with NaN is false. -/
def leB : JSNum → JSNum → Bool
  | nan, _ => false
  | _, nan => false
  | ninf, _ => true
  | inf, inf => true
  | inf, ninf => false
  | inf, fin _ => false
  | fin _, ninf => false
  | fin _, inf => true
  | fin a, fin b => decide (a ≤ b)

/-- JS `>` on numbers. -/
def gtB (a b : JSNum) : Bool := ltB b a

/-- JS `>=` on numbers. -/
def geB (a b : JSNum) : Bool := leB b a

/-- JS unary minus. -/
def neg : JSNum → JSNum
  | nan => nan
  | inf => ninf
  | ninf => inf
  | fin q => fin (-q)

/-- JS `+` on numbers (IEEE special-value rules). -/
def add : JSNum → JSNum → JSNum
  | nan, _ => nan
  | _, nan => nan
  | inf, ninf => nan
  | ninf, inf => nan
  | inf, _ => inf
  | _, inf => inf
  | ninf, _ => ninf
  | _, ninf => ninf
  | fin a, fin b => fin (a + b)

/-- JS `-` on numbers. -/
def sub (a b : JSNum) : JSNum := add a (neg b)

/-- JS `*` on numbers (IEEE special-value rules; infinity times zero is NaN). -/
def mul : JSNum → JSNum → JSNum
  | nan, _ => nan
  | _, nan => nan
  | inf, inf => inf
  | inf, ninf => ninf
  | ninf, inf => ninf
  | ninf, ninf => inf
  | inf, fin q => if q = 0 then nan else if 0 < q then inf else ninf
  | fin q, inf => if q = 0 then nan else if 0 < q then inf else ninf
  | ninf, fin q => if q = 0 then nan else if 0 < q then ninf else inf
  | fin q, ninf => if q = 0 then nan else if 0 < q then ninf else inf
  | fin a, fin b => fin (a * b)

/-- Division by the literal 100, as in `discount.value / 100`. -/
def div100 : JSNum → JSNum
  | nan => nan
  | inf => inf
  | ninf => ninf
  | fin q => fin (q / 100)

/-- JS `Math.max(0, x)` (NaN propagates). -/
def max0 : JSNum → JSNum
  | nan => nan
  | inf => inf
  | ninf => fin 0
  | fin q => fin (max 0 q)

end JSNum

/-- Exact rounding to 2 decimal places: the model of the
`parseFloat(x.toFixed(2))` round-trip on a finite value.  `toFixed` picks the
closest hundredth and the larger one on ties, i.e. half toward +infinity. -/
def round2q (q : ℚ) : ℚ := (⌊q * 100 + 1/2⌋ : ℤ) / 100

namespace JSNum

/-- `parseFloat(x.toFixed(2))` on a JS number: NaN and infinities round-trip
through their string forms unchanged. -/
def round2 : JSNum → JSNum
  | nan => nan
  | inf => inf
  | ninf => ninf
  | fin q => fin (round2q q)

end JSNum

/-- A discount descriptor `{ type, value }` as found in the product data.
The `value` field is kept as a JS number; the source checks
`typeof discount.value === 'number'`, which is vacuously true here. -/
structure Discount where
  dtype : String
  value : JSNum
deriving DecidableEq

/-- The discount label produced by `calculateDiscountedPrice`; the two string
shapes `"<value>% off"` and `"-$<value>"` are kept symbolically. -/
inductive DiscountText where
  | percentOff (v : JSNum)
  | fixedOff (v : JSNum)
deriving DecidableEq

/-- Return value of `calculateDiscountedPrice` (script.js lines 603-648). -/
structure PriceResult where
  finalPrice : JSNum
  discountText : Option DiscountText
  originalPrice : JSNum
  hasDiscount : Bool
deriving DecidableEq

/-- The discount branch of `calculateDiscountedPrice` (script.js lines
615-632): the state of the mutable locals `(finalPrice, discountText,
hasDiscount)` just before the final rounding step.  `discount &&` is the
`Option` match; `typeof discount.value === 'number'` is vacuous in the model. -/
def discountStep (price : JSNum) (discount : Option Discount) :
    JSNum × Option DiscountText × Bool :=
  match discount with
  | none => (price, none, false)
  | some d =>
    if d.value.gtB (JSNum.fin 0) then
      if d.dtype == "percent" && d.value.gtB (JSNum.fin 0) &&
          d.value.leB (JSNum.fin 100) then
        (price.mul ((JSNum.fin 1).sub d.value.div100),
          some (DiscountText.percentOff d.value), true)
      else if d.dtype == "fixed" then
        let f := (price.sub d.value).max0
        if f.ltB price then (f, some (DiscountText.fixedOff d.value), true)
        else (price, none, false)
      else (price, none, false)
    else (price, none, false)

/-- `window.calculateDiscountedPrice` (script.js lines 603-648).  The guard
`typeof price !== 'number' || isNaN(price) || price < 0` returns the
defensive passthrough; the `typeof` disjunct is vacuous in the numeric
model.  After the discount branch the final price is rounded via
`parseFloat(toFixed(2))` and reset to the base price unless strictly lower. -/
def calculateDiscountedPrice (price : JSNum) (discount : Option Discount) :
    PriceResult :=
  if price.isNaN || price.ltB (JSNum.fin 0) then
    { finalPrice := price, discountText := none, originalPrice := price,
      hasDiscount := false }
  else
    let s := discountStep price discount
    let fp := s.1.round2
    if fp.geB price then
      { finalPrice := price, discountText := none,
        originalPrice := price.round2, hasDiscount := false }
    else
      { finalPrice := fp, discountText := s.2.1,
        originalPrice := price.round2, hasDiscount := s.2.2 }

/-- Sanity check: the spec's example scenario 1, a 10-percent discount on a
price of 100. -/
lemma scenario1_price :
    calculateDiscountedPrice (JSNum.fin 100)
      (some { dtype := "percent", value := JSNum.fin 10 }) =
    { finalPrice := JSNum.fin 90,
      discountText := some (DiscountText.percentOff (JSNum.fin 10)),
      originalPrice := JSNum.fin 100, hasDiscount := true } := by
  norm_num [calculateDiscountedPrice, discountStep, JSNum.mul, JSNum.sub, JSNum.add, JSNum.neg,
    JSNum.div100, JSNum.round2, JSNum.isNaN, JSNum.ltB, JSNum.leB, JSNum.gtB, JSNum.geB, round2q]

/-- A cart line `{ name, price, quantity }` as stored under a product id in
`window.cart`.  The numeric fields are JS numbers; the sweep's
`typeof ... !== 'number'` checks are vacuous in this numeric model. -/
structure CartLine where
  name : String
  price : JSNum
  quantity : JSNum
deriving DecidableEq

/-- The cart mapping `window.cart`: product id to cart line, in insertion
order (JS object own-property order for string keys). -/
abbrev Cart := List (String × CartLine)

/-- The validity check of the sweep in `updateCartDisplay` (script.js line
694): an item is removed iff `item.quantity <= 0` or `isNaN(item.price)`
(plus the `typeof` checks, vacuous here).  Note that the check keeps NaN
quantities (`NaN <= 0` is false) and negative prices. -/
def validCartLine (e : CartLine) : Bool :=
  !(e.quantity.leB (JSNum.fin 0)) && !e.price.isNaN

/-- The `productIds.forEach` loop of `updateCartDisplay` (script.js lines
691-717): walks the entries in order, deletes invalid ones, and accumulates
`totalItems += quantity` and `currentCartTotal += price * quantity` over the
valid ones.  Returns (surviving entries, totalItems, currentCartTotal). -/
def sweepEntries : Cart → Cart × JSNum × JSNum
  | [] => ([], JSNum.fin 0, JSNum.fin 0)
  | (id, item) :: rest =>
    let r := sweepEntries rest
    if validCartLine item then
      ((id, item) :: r.1, item.quantity.add r.2.1,
        (item.price.mul item.quantity).add r.2.2)
    else r

/-- Observable outcome of `window.updateCartDisplay`. -/
structure CartDisplay where
  cleaned : Cart
  totalItems : JSNum
  cartTotal : JSNum
  persisted : Option Cart
deriving DecidableEq

/-- `window.updateCartDisplay` (script.js lines 655-740) as a function of the
cart mapping: sweeps out invalid entries, totals the rest, and saves the
(possibly modified) cart back to `localStorage`.  The early return when the
cart sidebar DOM elements are absent, and the rendering itself, are outside
the data model. -/
def updateCartDisplay (cart : Cart) : CartDisplay :=
  let r := sweepEntries cart
  { cleaned := r.1, totalItems := r.2.1, cartTotal := r.2.2,
    persisted := some r.1 }

/-- JS property access `window.cart[id]` on the cart mapping. -/
def cartGet : Cart → String → Option CartLine
  | [], _ => none
  | (k, v) :: rest, id => if k == id then some v else cartGet rest id

/-- The `window.cart[productId].quantity++` update of `addToCart` (script.js
line 760): the entry stored under the product id (JS object keys are unique,
so at most one entry matches) gets its quantity incremented in place. -/
def incrementQty : Cart → String → Cart
  | [], _ => []
  | (k, v) :: rest, productId =>
    (if k == productId then
      (k, { v with quantity := v.quantity.add (JSNum.fin 1) })
    else (k, v)) :: incrementQty rest productId

/-- Observable outcome of `window.addToCart`: the resulting in-memory cart,
whether the rejection alert fired, and what (if anything) was written to
durable storage. -/
structure AddResult where
  cart : Cart
  alerted : Bool
  persisted : Option Cart
deriving DecidableEq

/-- `window.addToCart(productId, productName, productPrice)` (script.js lines
748-778).  The `price` argument is the result of
`parseFloat(productPrice)`.  Validation rejects falsy id or name, NaN price,
or negative price, alerting and touching nothing; otherwise the entry is
incremented or inserted and `updateCartDisplay` sweeps and persists. -/
def addToCart (productId productName : String) (price : JSNum)
    (cart : Cart) : AddResult :=
  if productId == "" || productName == "" || price.isNaN ||
      price.ltB (JSNum.fin 0) then
    { cart := cart, alerted := true, persisted := none }
  else
    let cart' :=
      if (cartGet cart productId).isSome then incrementQty cart productId
      else cart ++ [(productId,
        { name := productName, price := price, quantity := JSNum.fin 1 })]
    let disp := updateCartDisplay cart'
    { cart := disp.cleaned, alerted := false, persisted := disp.persisted }

/-- A JSON value as produced by `JSON.parse`. -/
inductive JVal where
  | jnull
  | jbool (b : Bool)
  | jnum (n : JSNum)
  | jstr (s : String)
  | jarr (xs : List JVal)
  | jobj (fields : List (String × JVal))

namespace JVal

/-- JS truthiness of a parsed value. -/
def truthy : JVal → Bool
  | jnull => false
  | jbool b => b
  | jnum n => !n.isNaN && !(n == JSNum.fin 0)
  | jstr s => !(s == "")
  | jarr _ => true
  | jobj _ => true

/-- JS `typeof x === 'object'` on a parsed value (true for null, arrays and
objects). -/
def isObjType : JVal → Bool
  | jnull => true
  | jarr _ => true
  | jobj _ => true
  | _ => false

/-- JS `x === null`. -/
def isNull : JVal → Bool
  | jnull => true
  | _ => false

end JVal

/-- Cart Ledger startup load (script.js lines 501-514).  The argument is the
outcome of `JSON.parse(localStorage.getItem('shoppingCart'))`: `none` when
parsing threw, `some v` otherwise.  Returns the resulting `window.cart`
value and the value rewritten to storage, if any.  The `catch` branch only
resets the in-memory cart; the non-object branch also rewrites storage to
`'{}'` (modelled as the empty object). -/
def loadCart (parsed : Option JVal) : JVal × Option JVal :=
  match parsed with
  | none => (JVal.jobj [], none)
  | some v =>
    let c := if v.truthy then v else JVal.jobj []
    if !c.isObjType || c.isNull then (JVal.jobj [], some (JVal.jobj []))
    else (c, none)

/-- `addRecentlyViewedId` (product-detail.js lines 92-109) as a function of
the previously stored id list: guarded no-op on a falsy id, otherwise
removes the id, prepends it, and truncates to `MAX_RECENTLY_VIEWED = 8`. -/
def addRecentlyViewedId (productId : String) (stored : List String) :
    List String :=
  if productId == "" then stored
  else (productId :: stored.filter (fun id => id != productId)).take 8

/-- Per-character lowercasing of a string, the model of the ASCII behaviour
of JS `toLowerCase()`. -/
def strToLower (s : String) : String := ⟨s.data.map Char.toLower⟩

/-- JS whitespace for `trim()` (the characters occurring in this data). -/
def isWsChar (c : Char) : Bool :=
  c == ' ' || c == '\t' || c == '\n' || c == '\r'

/-- JS `trim()`: strip leading and trailing whitespace. -/
def strTrim (s : String) : String :=
  ⟨((s.data.dropWhile isWsChar).reverse.dropWhile isWsChar).reverse⟩

/-- JS `String.prototype.includes`: substring containment. -/
def strContains (s pattern : String) : Bool :=
  s.data.tails.any (fun t => pattern.data.isPrefixOf t)

/-- A catalog product, restricted to the fields the filter pipeline reads.
Missing `name`/`category`/`brand` fields are modelled as the empty string
(both are falsy in the source's guards). -/
structure Product where
  id : String
  name : String
  price : JSNum
  discount : Option Discount
  category : String
  brand : String
deriving DecidableEq

/-- The filter state read by `applyAllFilters`: raw search bar text, the
category stored by `setActiveCategory`, the two price slider values, and the
checked brand checkbox values. -/
structure FilterState where
  searchTerm : String
  selectedCategory : String
  minPrice : ℚ
  maxPrice : ℚ
  selectedBrands : List String
deriving DecidableEq

/-- The per-product predicate of `applyAllFilters` (script.js lines
1188-1192), including the normalisation the caller applies to the filter
inputs (lowercase/trim of the search term, lowercase category and brand
values).  A product card is displayed iff this returns true. -/
def matchesFilters (p : Product) (fs : FilterState) : Bool :=
  let searchTerm := strTrim (strToLower fs.searchTerm)
  let selectedCategory := strToLower fs.selectedCategory
  let selectedBrands := fs.selectedBrands.map strToLower
  let finalPrice := (calculateDiscountedPrice p.price p.discount).finalPrice
  let nameMatches := searchTerm == "" ||
    (!(p.name == "") && strContains (strToLower p.name) searchTerm)
  let categoryMatches := selectedCategory == "" ||
    (!(p.category == "") && strToLower p.category == selectedCategory)
  let priceMatches := finalPrice.geB (JSNum.fin fs.minPrice) &&
    finalPrice.leB (JSNum.fin fs.maxPrice)
  let brandMatches := selectedBrands.isEmpty ||
    (!(p.brand == "") && selectedBrands.contains (strToLower p.brand))
  nameMatches && categoryMatches && priceMatches && brandMatches

/-- The visible subset computed by `applyAllFilters` over the catalog. -/
def applyAllFilters (catalog : List Product) (fs : FilterState) :
    List Product :=
  catalog.filter (fun p => matchesFilters p fs)

/-- Modelled from the spec: the four visibility predicates exactly as the
claim states them — name containment (case-insensitive), exact category
match (case-insensitive), pricing-engine final price within
`[minPrice, maxPrice]` inclusive, and brand membership (case-insensitive) —
with no extra non-emptiness guards. -/
def specVisiblePred (p : Product) (fs : FilterState) : Prop :=
  let searchTerm := strTrim (strToLower fs.searchTerm)
  let selectedCategory := strToLower fs.selectedCategory
  let selectedBrands := fs.selectedBrands.map strToLower
  let finalPrice := (calculateDiscountedPrice p.price p.discount).finalPrice
  (searchTerm = "" ∨ strContains (strToLower p.name) searchTerm = true) ∧
  (selectedCategory = "" ∨ strToLower p.category = selectedCategory) ∧
  (finalPrice.geB (JSNum.fin fs.minPrice) = true ∧
    finalPrice.leB (JSNum.fin fs.maxPrice) = true) ∧
  (selectedBrands = [] ∨ strToLower p.brand ∈ selectedBrands)

/-- The claim's predicate amended only in the brand clause: a product with a
selected brand set additionally needs a non-empty brand field (the source
guards on `product.brand &&` before the membership test). -/
def amendedVisiblePred (p : Product) (fs : FilterState) : Prop :=
  let searchTerm := strTrim (strToLower fs.searchTerm)
  let selectedCategory := strToLower fs.selectedCategory
  let selectedBrands := fs.selectedBrands.map strToLower
  let finalPrice := (calculateDiscountedPrice p.price p.discount).finalPrice
  (searchTerm = "" ∨ strContains (strToLower p.name) searchTerm = true) ∧
  (selectedCategory = "" ∨ strToLower p.category = selectedCategory) ∧
  (finalPrice.geB (JSNum.fin fs.minPrice) = true ∧
    finalPrice.leB (JSNum.fin fs.maxPrice) = true) ∧
  (selectedBrands = [] ∨
    (p.brand ≠ "" ∧ strToLower p.brand ∈ selectedBrands))

/-- Visibility state of the overlay layer: the `visible` class bits of the
three sidebars, the shared sidebar overlay `#overlay`, the quick-view modal
and its `#modal-overlay`, the auth modal and its `#auth-modal-overlay`, and
the `#zoom-overlay` (the zoom feature's only element). -/
structure OvState where
  nav : Bool
  cart : Bool
  filters : Bool
  sidebarOverlay : Bool
  productModal : Bool
  modalOverlay : Bool
  authModal : Bool
  authOverlay : Bool
  zoomOverlay : Bool
deriving DecidableEq

/-- The six logical overlays of the spec's overlay state. -/
inductive Overlay where
  | nav
  | cart
  | filters
  | quickView
  | auth
  | zoom
deriving DecidableEq

/-- Whether a logical overlay is open in a state. -/
def isOpen (s : OvState) : Overlay → Bool
  | Overlay.nav => s.nav
  | Overlay.cart => s.cart
  | Overlay.filters => s.filters
  | Overlay.quickView => s.productModal
  | Overlay.auth => s.authModal
  | Overlay.zoom => s.zoomOverlay

/-- The open overlays of a state, in a fixed enumeration order. -/
def openList (s : OvState) : List Overlay :=
  [Overlay.nav, Overlay.cart, Overlay.filters, Overlay.quickView,
    Overlay.auth, Overlay.zoom].filter (isOpen s)

/-- `closeZoom` (script.js lines 945-954): hides the zoom overlay if
visible. -/
def closeZoom (s : OvState) : OvState :=
  if s.zoomOverlay then { s with zoomOverlay := false } else s

/-- `closeAuthModal` (script.js lines 899-907): hides the auth modal and its
overlay if the modal is visible. -/
def closeAuthModal (s : OvState) : OvState :=
  if s.authModal then { s with authModal := false, authOverlay := false }
  else s

/-- `closeProductModal` (script.js lines 889-896): hides the quick-view
modal and its overlay if the modal is visible. -/
def closeProductModal (s : OvState) : OvState :=
  if s.productModal then
    { s with productModal := false, modalOverlay := false }
  else s

/-- `closeSidebar` (script.js lines 863-870) applied to the mobile nav. -/
def closeSidebarNav (s : OvState) : OvState :=
  if s.nav then { s with nav := false, sidebarOverlay := false } else s

/-- `closeSidebar` applied to the cart sidebar. -/
def closeSidebarCart (s : OvState) : OvState :=
  if s.cart then { s with cart := false, sidebarOverlay := false } else s

/-- `closeSidebar` applied to the filter sidebar. -/
def closeSidebarFilters (s : OvState) : OvState :=
  if s.filters then { s with filters := false, sidebarOverlay := false }
  else s

/-- `closeAllSidebars` (script.js lines 873-886): closes each visible
sidebar that uses the shared `#overlay`. -/
def closeAllSidebars (s : OvState) : OvState :=
  closeSidebarFilters (closeSidebarCart (closeSidebarNav s))

/-- `closeAllPopups` (script.js lines 957-967): closes only the topmost
layer — zoom before the auth modal, before the quick-view modal, before the
sidebars (the sidebar branch keys on the shared `#overlay` visibility). -/
def closeAllPopups (s : OvState) : OvState :=
  if s.zoomOverlay then closeZoom s
  else if s.authModal then closeAuthModal s
  else if s.productModal then closeProductModal s
  else if s.sidebarOverlay then closeAllSidebars s
  else s

/-- `openSidebar` (script.js lines 839-855) for the mobile nav: no-op when
already visible, otherwise close other popups first, then show the sidebar
and the shared overlay. -/
def openSidebarNav (s : OvState) : OvState :=
  if s.nav then s
  else
    let s := closeAllPopups s
    { s with nav := true, sidebarOverlay := true }

/-- `openSidebar` for the cart sidebar. -/
def openSidebarCart (s : OvState) : OvState :=
  if s.cart then s
  else
    let s := closeAllPopups s
    { s with cart := true, sidebarOverlay := true }

/-- `openSidebar` for the filter sidebar. -/
def openSidebarFilters (s : OvState) : OvState :=
  if s.filters then s
  else
    let s := closeAllPopups s
    { s with filters := true, sidebarOverlay := true }

/-- `openProductModal` (script.js lines 1013-1072): closes other popups,
then shows the quick-view modal and its overlay (no already-visible
guard in the source). -/
def openProductModal (s : OvState) : OvState :=
  let s := closeAllPopups s
  { s with productModal := true, modalOverlay := true }

/-- `openAuthModal` (script.js line 1322): no-op when already visible,
otherwise closes other popups, then shows the auth modal and its overlay
(the deferred inner re-check cannot fire in the single-threaded model). -/
def openAuthModal (s : OvState) : OvState :=
  if s.authModal then s
  else
    let s := closeAllPopups s
    { s with authModal := true, authOverlay := true }

/-- `window.openZoom` (script.js lines 916-942): shows the zoom overlay via
`openOverlay` (no-op when already visible).  The `closeAllPopups()` call is
commented out in the source, so nothing else is closed. -/
def openZoom (s : OvState) : OvState :=
  if s.zoomOverlay then s else { s with zoomOverlay := true }

/-- The open operations that target a single non-zoom overlay. -/
inductive OpenOp where
  | nav
  | cart
  | filters
  | quickView
  | auth
deriving DecidableEq

/-- Dispatch an open operation. -/
def applyOpen : OpenOp → OvState → OvState
  | OpenOp.nav => openSidebarNav
  | OpenOp.cart => openSidebarCart
  | OpenOp.filters => openSidebarFilters
  | OpenOp.quickView => openProductModal
  | OpenOp.auth => openAuthModal

/-- The overlay an open operation targets. -/
def targetOverlay : OpenOp → Overlay
  | OpenOp.nav => Overlay.nav
  | OpenOp.cart => Overlay.cart
  | OpenOp.filters => Overlay.filters
  | OpenOp.quickView => Overlay.quickView
  | OpenOp.auth => Overlay.auth

/-- At most one logical overlay is open. -/
def atMostOneOpen (s : OvState) : Bool := decide ((openList s).length ≤ 1)

/-- The shared sidebar overlay is visible whenever some sidebar is visible
(holds in every state reachable from the initial all-hidden state). -/
def sidebarOverlayConsistent (s : OvState) : Bool :=
  !(s.nav || s.cart || s.filters) || s.sidebarOverlay

/-- The initial all-hidden overlay state. -/
def initOvState : OvState :=
  { nav := false, cart := false, filters := false, sidebarOverlay := false,
    productModal := false, modalOverlay := false, authModal := false,
    authOverlay := false, zoomOverlay := false }

/-! ### Helper lemmas about the pricing engine -/

lemma guard_false_of_nonneg (q : ℚ) (hq : 0 ≤ q) :
    ((JSNum.fin q).isNaN || (JSNum.fin q).ltB (JSNum.fin 0)) = false := by
  simp only [JSNum.isNaN, JSNum.ltB, Bool.false_or, decide_eq_false_iff_not,
    not_lt]
  exact hq

lemma discountStep_fin (q : ℚ) (d : Option Discount) :
    ∃ x : ℚ, (discountStep (JSNum.fin q) d).1 = JSNum.fin x := by
  cases d with
  | none => exact ⟨q, rfl⟩
  | some dd =>
    cases hv : dd.value with
    | nan =>
      exact ⟨q, by simp [discountStep, hv, JSNum.gtB, JSNum.ltB]⟩
    | ninf =>
      exact ⟨q, by simp [discountStep, hv, JSNum.gtB, JSNum.ltB]⟩
    | inf =>
      simp [discountStep, hv, JSNum.gtB, JSNum.ltB, JSNum.leB, JSNum.mul,
        JSNum.sub, JSNum.neg, JSNum.add, JSNum.div100, JSNum.max0]
      repeat' split
      all_goals exact ⟨_, rfl⟩
    | fin v =>
      simp [discountStep, hv, JSNum.gtB, JSNum.ltB, JSNum.leB, JSNum.mul,
        JSNum.sub, JSNum.neg, JSNum.add, JSNum.div100, JSNum.max0]
      repeat' split
      all_goals exact ⟨_, rfl⟩

/-! ### C2, C3, C8: the pricing engine -/

/-- C2 (counterexample): for the finite price `0.004` with no discount, the
code returns `finalPrice = 0` (the unconditional `toFixed(2)` rounding
lowers an undiscounted price) with `hasDiscount = false`, so `hasDiscount`
is not equivalent to `finalPrice < price` as the claim states. -/
theorem c2_counterexample :
    (calculateDiscountedPrice (JSNum.fin (1/250)) none).hasDiscount = false ∧
    (calculateDiscountedPrice (JSNum.fin (1/250)) none).finalPrice.ltB
      (JSNum.fin (1/250)) = true := by
  norm_num [calculateDiscountedPrice, discountStep, JSNum.isNaN, JSNum.ltB,
    JSNum.leB, JSNum.gtB, JSNum.geB, JSNum.round2, round2q]

/-- C2 (amended): for every finite price `>= 0` and every discount
descriptor, `calculateDiscountedPrice` returns `finalPrice <= price`, and
`hasDiscount = true` implies `finalPrice < price` strictly.  The converse
implication of the claim fails (see the counterexample): rounding an
undiscounted sub-cent price can lower it while `hasDiscount` stays false. -/
theorem c2_amended (q : ℚ) (hq : 0 ≤ q) (d : Option Discount) :
    (calculateDiscountedPrice (JSNum.fin q) d).finalPrice.leB
      (JSNum.fin q) = true ∧
    ((calculateDiscountedPrice (JSNum.fin q) d).hasDiscount = true →
      (calculateDiscountedPrice (JSNum.fin q) d).finalPrice.ltB
        (JSNum.fin q) = true) := by
  obtain ⟨x, hx⟩ := discountStep_fin q d
  simp only [calculateDiscountedPrice, guard_false_of_nonneg q hq,
    Bool.false_eq_true, if_false, hx, JSNum.round2, JSNum.geB, JSNum.leB,
    decide_eq_true_eq]
  split_ifs with h
  · refine ⟨by simp [JSNum.leB], ?_⟩
    intro hd
    simp at hd
  · have hlt : round2q x < q := not_le.1 h
    refine ⟨?_, ?_⟩
    · simp only [JSNum.leB, decide_eq_true_eq]
      linarith
    · intro _
      simp only [JSNum.ltB, decide_eq_true_eq]
      exact hlt

/-- C2 (witness): the amended theorem applied at price 5, no discount. -/
theorem c2_witness :
    (0:ℚ) ≤ 5 ∧
    ((calculateDiscountedPrice (JSNum.fin 5) none).finalPrice.leB
        (JSNum.fin 5) = true ∧
      ((calculateDiscountedPrice (JSNum.fin 5) none).hasDiscount = true →
        (calculateDiscountedPrice (JSNum.fin 5) none).finalPrice.ltB
          (JSNum.fin 5) = true)) :=
  ⟨by norm_num, c2_amended 5 (by norm_num) none⟩

lemma discountStep_percent (q v : ℚ) (hv0 : 0 < v) (hv1 : v ≤ 100) :
    discountStep (JSNum.fin q)
        (some { dtype := "percent", value := JSNum.fin v }) =
      (JSNum.fin (q * (1 - v / 100)),
        some (DiscountText.percentOff (JSNum.fin v)), true) := by
  simp [discountStep, JSNum.gtB, JSNum.ltB, JSNum.leB, hv0, hv1, JSNum.mul,
    JSNum.sub, JSNum.neg, JSNum.add, JSNum.div100, sub_eq_add_neg]

/-- C3 (counterexample): at finite price `0.006` with percent value `0.1`
(`0 < 0.1 <= 100`), the rounded discounted price is `0.01 > price`, so the
code discards the discount and returns `finalPrice = 0.006`, not
`round2(price*(1-v/100)) = 0.01` as the claim states. -/
theorem c3_counterexample :
    (calculateDiscountedPrice (JSNum.fin (3/500))
        (some { dtype := "percent", value := JSNum.fin (1/10) })).finalPrice
      = JSNum.fin (3/500) ∧
    round2q ((3/500) * (1 - (1/10) / 100)) = 1/100 ∧
    (3/500 : ℚ) ≠ 1/100 := by
  refine ⟨?_, by norm_num [round2q], by norm_num⟩
  simp only [calculateDiscountedPrice,
    guard_false_of_nonneg (3/500) (by norm_num),
    discountStep_percent (3/500) (1/10) (by norm_num) (by norm_num),
    Bool.false_eq_true, if_false, JSNum.round2, JSNum.geB, JSNum.leB,
    decide_eq_true_eq]
  rw [if_pos (by norm_num [round2q])]

/-- C3 (amended): for finite price `>= 0` and percent value `0 < v <= 100`,
`finalPrice = round2(price*(1-v/100))` whenever that rounded value is
strictly below the price; otherwise the final reset discards the discount
and `finalPrice = price` with `hasDiscount = false`. -/
theorem c3_amended (q v : ℚ) (hq : 0 ≤ q) (hv0 : 0 < v) (hv1 : v ≤ 100) :
    (round2q (q * (1 - v / 100)) < q →
      calculateDiscountedPrice (JSNum.fin q)
          (some { dtype := "percent", value := JSNum.fin v }) =
        { finalPrice := JSNum.fin (round2q (q * (1 - v / 100))),
          discountText := some (DiscountText.percentOff (JSNum.fin v)),
          originalPrice := JSNum.fin (round2q q), hasDiscount := true }) ∧
    (q ≤ round2q (q * (1 - v / 100)) →
      calculateDiscountedPrice (JSNum.fin q)
          (some { dtype := "percent", value := JSNum.fin v }) =
        { finalPrice := JSNum.fin q, discountText := none,
          originalPrice := JSNum.fin (round2q q), hasDiscount := false }) := by
  simp only [calculateDiscountedPrice, guard_false_of_nonneg q hq,
    discountStep_percent q v hv0 hv1, Bool.false_eq_true, if_false,
    JSNum.round2, JSNum.geB, JSNum.leB, decide_eq_true_eq]
  split_ifs with h
  · exact ⟨fun hc => absurd h (not_le.2 hc), fun _ => rfl⟩
  · exact ⟨fun _ => rfl, fun hc => absurd hc h⟩

/-- C3 (witness): the amended theorem applied at price 100, percent 10,
where the rounded discounted price `90` is strictly below the price. -/
theorem c3_witness :
    (0:ℚ) ≤ 100 ∧ (0:ℚ) < 10 ∧ (10:ℚ) ≤ 100 ∧
    round2q (100 * (1 - 10 / 100)) < 100 ∧
    calculateDiscountedPrice (JSNum.fin 100)
        (some { dtype := "percent", value := JSNum.fin 10 }) =
      { finalPrice := JSNum.fin (round2q (100 * (1 - 10 / 100))),
        discountText := some (DiscountText.percentOff (JSNum.fin 10)),
        originalPrice := JSNum.fin (round2q 100), hasDiscount := true } :=
  ⟨by norm_num, by norm_num, by norm_num, by norm_num [round2q],
    (c3_amended 100 10 (by norm_num) (by norm_num) (by norm_num)).1
      (by norm_num [round2q])⟩

/-- C8 (counterexample): the guard checks only `isNaN(price) || price < 0`,
so `price = Infinity` is not passed through: with a 100-percent discount the
code returns `finalPrice = NaN` and `hasDiscount = true`, not the claimed
passthrough record with `hasDiscount = false`. -/
theorem c8_counterexample :
    (calculateDiscountedPrice JSNum.inf
        (some { dtype := "percent", value := JSNum.fin 100 })).hasDiscount
      = true ∧
    (calculateDiscountedPrice JSNum.inf
        (some { dtype := "percent", value := JSNum.fin 100 })).finalPrice
      = JSNum.nan := by
  norm_num [calculateDiscountedPrice, discountStep, JSNum.isNaN, JSNum.ltB,
    JSNum.leB, JSNum.gtB, JSNum.geB, JSNum.mul, JSNum.sub, JSNum.neg,
    JSNum.add, JSNum.div100, JSNum.round2]

/-- C8 (amended): for every price that is NaN or negative (the guard the
source actually implements; non-number prices fall under the vacuous
`typeof` disjunct) and every discount, `calculateDiscountedPrice` returns
the unchanged passthrough record.  `Infinity` is not covered: it enters the
discount logic (see the counterexample). -/
theorem c8_amended (price : JSNum) (discount : Option Discount)
    (h : price.isNaN = true ∨ price.ltB (JSNum.fin 0) = true) :
    calculateDiscountedPrice price discount =
      { finalPrice := price, discountText := none, originalPrice := price,
        hasDiscount := false } := by
  unfold calculateDiscountedPrice
  rcases h with h | h <;> simp [h]

/-- C8 (witness): the amended theorem applied at price NaN. -/
theorem c8_witness :
    (JSNum.nan.isNaN = true ∨ JSNum.nan.ltB (JSNum.fin 0) = true) ∧
    calculateDiscountedPrice JSNum.nan none =
      { finalPrice := JSNum.nan, discountText := none,
        originalPrice := JSNum.nan, hasDiscount := false } :=
  ⟨Or.inl rfl, c8_amended JSNum.nan none (Or.inl rfl)⟩

/-! ### Helper lemmas about the cart ledger -/

lemma sweepEntries_cleaned (cart : Cart) :
    (sweepEntries cart).1 = cart.filter (fun e => validCartLine e.2) := by
  induction cart with
  | nil => rfl
  | cons e rest ih =>
    obtain ⟨id, item⟩ := e
    by_cases h : validCartLine item = true
    · simp [sweepEntries, h, ih]
    · simp only [Bool.not_eq_true] at h
      simp [sweepEntries, h, ih]

lemma filter_valid_eq_self (cart : Cart)
    (h : ∀ e ∈ cart, validCartLine e.2 = true) :
    cart.filter (fun e => validCartLine e.2) = cart :=
  List.filter_eq_self.2 h

lemma cartGet_filter_valid_none (cart : Cart) (id : String)
    (h : cartGet cart id = none) :
    cartGet (cart.filter (fun e => validCartLine e.2)) id = none := by
  induction cart with
  | nil => rfl
  | cons e rest ih =>
    obtain ⟨k, v⟩ := e
    simp only [cartGet] at h
    simp only [List.filter_cons]
    split at h
    · simp at h
    · next hcond =>
      split
      · simp only [cartGet]
        rw [if_neg hcond]
        exact ih h
      · exact ih h

lemma cartGet_append_single (cart : Cart) (id : String) (e : CartLine)
    (h : cartGet cart id = none) :
    cartGet (cart ++ [(id, e)]) id = some e := by
  induction cart with
  | nil => simp [cartGet]
  | cons a rest ih =>
    obtain ⟨k, v⟩ := a
    simp only [cartGet] at h
    split at h
    · simp at h
    · next hcond =>
      simp only [List.cons_append, cartGet]
      rw [if_neg hcond]
      exact ih h

lemma cartGet_incrementQty_self (cart : Cart) (id : String) (e : CartLine)
    (h : cartGet cart id = some e) :
    cartGet (incrementQty cart id) id =
      some { e with quantity := e.quantity.add (JSNum.fin 1) } := by
  induction cart with
  | nil => simp [cartGet] at h
  | cons a rest ih =>
    obtain ⟨k, v⟩ := a
    simp only [cartGet] at h
    simp only [incrementQty]
    split at h
    · next hcond =>
      rw [if_pos hcond]
      simp only [cartGet]
      rw [if_pos hcond]
      rw [Option.some_inj] at h
      rw [h]
    · next hcond =>
      rw [if_neg hcond]
      simp only [cartGet]
      rw [if_neg hcond]
      exact ih h

lemma cartGet_incrementQty_other (cart : Cart) (id id2 : String)
    (h : (id2 == id) = false) :
    cartGet (incrementQty cart id) id2 = cartGet cart id2 := by
  induction cart with
  | nil => rfl
  | cons a rest ih =>
    obtain ⟨k, v⟩ := a
    simp only [incrementQty]
    split
    · next hk =>
      have hk2 : (k == id2) = false := by
        have h1 : k = id := by simpa using hk
        have h2 : ¬(id2 = id) := by simpa using h
        subst h1
        simp only [beq_eq_false_iff_ne]
        exact fun hkk => h2 hkk.symm
      simp only [cartGet]
      rw [if_neg (by simp [hk2]), if_neg (by simp [hk2])]
      exact ih
    · simp only [cartGet]
      by_cases h2 : (k == id2) = true
      · rw [if_pos h2, if_pos h2]
      · rw [if_neg h2, if_neg h2]
        exact ih

lemma validCartLine_increment (v : CartLine)
    (h : validCartLine v = true) :
    validCartLine { v with quantity := v.quantity.add (JSNum.fin 1) }
      = true := by
  unfold validCartLine at h ⊢
  rw [Bool.and_eq_true] at h ⊢
  refine ⟨?_, h.2⟩
  have h1 := h.1
  cases hq : v.quantity with
  | nan => simp [JSNum.add, JSNum.leB]
  | inf => simp [JSNum.add, JSNum.leB]
  | ninf => rw [hq] at h1; simp [JSNum.leB] at h1
  | fin x =>
    rw [hq] at h1
    simp only [JSNum.leB, Bool.not_eq_true', decide_eq_false_iff_not,
      not_le] at h1
    simp only [JSNum.add, JSNum.leB, Bool.not_eq_true',
      decide_eq_false_iff_not, not_le]
    linarith

lemma incrementQty_valid (cart : Cart) (id : String)
    (h : ∀ e ∈ cart, validCartLine e.2 = true) :
    ∀ e ∈ incrementQty cart id, validCartLine e.2 = true := by
  induction cart with
  | nil => intro e he; cases he
  | cons a rest ih =>
    obtain ⟨k, v⟩ := a
    intro e he
    have hv : validCartLine v = true := h (k, v) (List.mem_cons_self _ _)
    have hrest : ∀ e ∈ rest, validCartLine e.2 = true :=
      fun e2 he2 => h e2 (List.mem_cons_of_mem _ he2)
    simp only [incrementQty, List.mem_cons] at he
    rcases he with he | he
    · subst he
      split
      · exact validCartLine_increment v hv
      · exact hv
    · exact ih hrest e he

/-! ### C1, C6, C10: the cart ledger -/

/-- The negative-price cart line of the C1 counterexample. -/
def negPriceLine : CartLine :=
  { name := "x", price := JSNum.fin (-5), quantity := JSNum.fin 1 }

/-- C1 (counterexample): a cart entry with unit price `-5` and quantity `1`
survives the sweep untouched (the source never checks `price < 0`), so
after the sweep not every remaining entry has `unitPrice >= 0`. -/
theorem c1_counterexample :
    (updateCartDisplay [("p1", negPriceLine)]).cleaned =
      [("p1", negPriceLine)] ∧
    negPriceLine.price.geB (JSNum.fin 0) = false := by
  constructor
  · norm_num [updateCartDisplay, sweepEntries, validCartLine, negPriceLine,
      JSNum.leB, JSNum.isNaN]
  · norm_num [negPriceLine, JSNum.geB, JSNum.leB]

/-- C1 (amended): the sweep of `updateCartDisplay` drops exactly the entries
failing the code's check (`quantity <= 0` in the JS comparison sense — NaN
quantities survive — or NaN price); every remaining entry passes that check,
and the cleaned mapping is persisted.  The claim's invariant
`quantity >= 1 ∧ unitPrice >= 0` is not restored: fractional quantities in
`(0,1)` and negative prices survive (see the counterexample). -/
theorem c1_amended (cart : Cart) :
    (updateCartDisplay cart).cleaned =
      cart.filter (fun e => validCartLine e.2) ∧
    (∀ e ∈ (updateCartDisplay cart).cleaned, validCartLine e.2 = true) ∧
    (updateCartDisplay cart).persisted =
      some ((updateCartDisplay cart).cleaned) := by
  refine ⟨?_, ?_, rfl⟩
  · simp only [updateCartDisplay]
    exact sweepEntries_cleaned cart
  · intro e he
    simp only [updateCartDisplay, sweepEntries_cleaned] at he
    exact (List.mem_filter.1 he).2

/-- A small valid cart line used by witnesses. -/
def wLine : CartLine :=
  { name := "w", price := JSNum.fin 2, quantity := JSNum.fin 1 }

/-- C1 (witness): the amended theorem applied to a one-entry valid cart; the
member entry of the cleaned mapping passes the validity check. -/
theorem c1_witness : validCartLine wLine = true :=
  (c1_amended [("p1", wLine)]).2.1 ("p1", wLine)
    (by norm_num [updateCartDisplay, sweepEntries, validCartLine, wLine,
      JSNum.leB, JSNum.isNaN])

/-- C6 (counterexample): `addToCart` with price `Infinity` is accepted (the
validation only checks `isNaN(parseFloat(price)) || price < 0`), inserting
an entry and persisting, whereas the claim requires rejection of any price
that is not a finite number. -/
theorem c6_counterexample :
    (addToCart "p1" "Widget" JSNum.inf []).alerted = false ∧
    (addToCart "p1" "Widget" JSNum.inf []).cart =
      [("p1", { name := "Widget", price := JSNum.inf, quantity := JSNum.fin 1 })] := by
  norm_num [addToCart, cartGet, updateCartDisplay, sweepEntries,
    validCartLine, JSNum.isNaN, JSNum.ltB, JSNum.leB]
  simp

/-- C6 (amended): `addToCart` rejects with an alert and no mutation or
persistence iff the id or name is empty or the parsed price is NaN or
negative; `Infinity` passes the validation (see the counterexample).  On
acceptance the alert does not fire, the resulting cart is persisted, and a
fresh id is inserted with quantity 1. -/
theorem c6_amended (id name : String) (price : JSNum) (cart : Cart) :
    ((id = "" ∨ name = "" ∨ price.isNaN = true ∨
        price.ltB (JSNum.fin 0) = true) →
      addToCart id name price cart =
        { cart := cart, alerted := true, persisted := none }) ∧
    (id ≠ "" → name ≠ "" → price.isNaN = false →
      price.ltB (JSNum.fin 0) = false →
      (addToCart id name price cart).alerted = false ∧
      (addToCart id name price cart).persisted =
        some ((addToCart id name price cart).cart) ∧
      (cartGet cart id = none →
        cartGet (addToCart id name price cart).cart id =
          some { name := name, price := price, quantity := JSNum.fin 1 })) := by
  constructor
  · rintro (h | h | h | h)
    · subst h; simp [addToCart]
    · subst h; simp [addToCart]
    · simp [addToCart, h]
    · simp [addToCart, h]
  · intro hid hname hnan hneg
    have hid2 : (id == "") = false := by simpa using hid
    have hname2 : (name == "") = false := by simpa using hname
    simp only [addToCart, hid2, hname2, hnan, hneg, Bool.or_self,
      Bool.or_false, Bool.false_or, Bool.false_eq_true, if_false]
    refine ⟨by trivial, by trivial, ?_⟩
    intro hnone
    have hvalidnew : validCartLine
        { name := name, price := price, quantity := JSNum.fin 1 } = true := by
      norm_num [validCartLine, JSNum.leB, hnan]
    simp only [hnone, Option.isSome_none, Bool.false_eq_true, if_false,
      updateCartDisplay, sweepEntries_cleaned, List.filter_append]
    rw [show List.filter (fun e => validCartLine e.2)
        [(id, { name := name, price := price, quantity := JSNum.fin 1 })] =
        [(id, { name := name, price := price, quantity := JSNum.fin 1 })] by
      simp [List.filter_cons, hvalidnew]]
    exact cartGet_append_single _ _ _
      (cartGet_filter_valid_none cart id hnone)

/-- C6 (witness): the rejecting branch at an empty id, and the accepting
branch inserting quantity 1 into an empty cart. -/
theorem c6_witness :
    addToCart "" "x" (JSNum.fin 1) [] =
      { cart := [], alerted := true, persisted := none } ∧
    cartGet (addToCart "p9" "x" (JSNum.fin 1) []).cart "p9" =
      some { name := "x", price := JSNum.fin 1, quantity := JSNum.fin 1 } :=
  ⟨(c6_amended "" "x" (JSNum.fin 1) []).1 (Or.inl rfl),
    ((c6_amended "p9" "x" (JSNum.fin 1) []).2 (by decide) (by decide)
      rfl (by norm_num [JSNum.ltB])).2.2 rfl⟩

/-- The two-entry cart of the C10 counterexample: a valid entry `p1` and an
invalid sibling `p2` with quantity 0. -/
def c10Cart : Cart :=
  [("p1", { name := "Widget", price := JSNum.fin 10, quantity := JSNum.fin 1 }),
   ("p2", { name := "Mug", price := JSNum.fin 5, quantity := JSNum.fin 0 })]

/-- C10 (counterexample): calling `addToCart` with valid arguments for the
existing entry `p1` also deletes the unrelated invalid sibling `p2`
(quantity 0), because the triggered `updateCartDisplay` sweep runs over the
whole cart — so not every other cart entry is left unchanged. -/
theorem c10_counterexample :
    cartGet c10Cart "p2" =
      some { name := "Mug", price := JSNum.fin 5, quantity := JSNum.fin 0 } ∧
    cartGet (addToCart "p1" "Widget" (JSNum.fin 10) c10Cart).cart "p2" =
      none := by
  constructor
  · simp [c10Cart, cartGet]
  · norm_num [c10Cart, addToCart, cartGet, incrementQty, updateCartDisplay,
      sweepEntries, validCartLine, JSNum.isNaN, JSNum.ltB, JSNum.leB,
      JSNum.add]
    intro h
    simp at h

/-- C10 (amended): when `addToCart` is called with valid arguments, an entry
for the id exists, and every cart entry passes the sweep's validity check,
then only the target entry's quantity changes (incremented by 1, keeping the
stored name and price even when the arguments differ) and every other entry
is unchanged.  Without the all-entries-valid hypothesis the triggered sweep
deletes invalid siblings (see the counterexample). -/
theorem c10_amended (id name : String) (price : JSNum) (cart : Cart)
    (e : CartLine) (hid : id ≠ "") (hname : name ≠ "")
    (hnan : price.isNaN = false) (hneg : price.ltB (JSNum.fin 0) = false)
    (he : cartGet cart id = some e)
    (hvalid : ∀ kv ∈ cart, validCartLine kv.2 = true) :
    cartGet (addToCart id name price cart).cart id =
      some { name := e.name, price := e.price,
             quantity := e.quantity.add (JSNum.fin 1) } ∧
    ∀ id2, id2 ≠ id →
      cartGet (addToCart id name price cart).cart id2 = cartGet cart id2 := by
  have hid2 : (id == "") = false := by simpa using hid
  have hname2 : (name == "") = false := by simpa using hname
  have hsome : (cartGet cart id).isSome = true := by rw [he]; rfl
  have hall : ∀ kv ∈ incrementQty cart id, validCartLine kv.2 = true :=
    incrementQty_valid cart id hvalid
  have hfix : (sweepEntries (incrementQty cart id)).1 =
      incrementQty cart id := by
    rw [sweepEntries_cleaned]
    exact filter_valid_eq_self _ hall
  simp only [addToCart, hid2, hname2, hnan, hneg, Bool.or_self,
    Bool.or_false, Bool.false_or, Bool.false_eq_true, if_false, hsome,
    if_true, updateCartDisplay, hfix]
  constructor
  · exact cartGet_incrementQty_self cart id e he
  · intro id2 hne
    exact cartGet_incrementQty_other cart id id2 (by simpa using hne)

/-- The one-entry cart of the C10 witness. -/
def c10WCart : Cart :=
  [("p1", { name := "W", price := JSNum.fin 10, quantity := JSNum.fin 2 })]

/-- C10 (witness): adding an existing id with a different name and price
leaves the stored name and price intact and only bumps the quantity. -/
theorem c10_witness :
    cartGet c10WCart "p1" =
      some { name := "W", price := JSNum.fin 10, quantity := JSNum.fin 2 } ∧
    cartGet (addToCart "p1" "Other" (JSNum.fin 99) c10WCart).cart "p1" =
      some { name := "W", price := JSNum.fin 10,
             quantity := (JSNum.fin 2).add (JSNum.fin 1) } :=
  ⟨rfl,
    (c10_amended "p1" "Other" (JSNum.fin 99) c10WCart
      { name := "W", price := JSNum.fin 10, quantity := JSNum.fin 2 }
      (by decide) (by decide) rfl (by norm_num [JSNum.ltB]) rfl
      (by
        intro kv hkv
        simp only [c10WCart, List.mem_singleton] at hkv
        subst hkv
        norm_num [validCartLine, JSNum.leB, JSNum.isNaN])).1⟩

/-! ### C7: cart ledger load -/

/-- C7 (counterexample): when `JSON.parse` throws (parse failure), the
`catch` branch only resets the in-memory cart; storage is NOT rewritten
(second component `none`), contradicting the claim that a parse failure
both resets and rewrites storage. -/
theorem c7_counterexample :
    loadCart none = (JVal.jobj [], none) ∧
    (loadCart none).2 ≠ some (JVal.jobj []) := by
  exact ⟨rfl, by simp [loadCart]⟩

/-- C7 (amended): on parse failure the in-memory cart resets to the empty
mapping but storage is left untouched; a successfully parsed falsy value is
replaced by the empty mapping without a rewrite; a truthy non-object value
resets the cart and rewrites storage to the empty mapping; a truthy
object-typed value is kept as-is. -/
theorem c7_amended :
    loadCart none = (JVal.jobj [], none) ∧
    (∀ v : JVal, v.truthy = false →
      loadCart (some v) = (JVal.jobj [], none)) ∧
    (∀ v : JVal, v.truthy = true → v.isObjType = false →
      loadCart (some v) = (JVal.jobj [], some (JVal.jobj []))) ∧
    (∀ v : JVal, v.truthy = true → v.isObjType = true →
      loadCart (some v) = (v, none)) := by
  refine ⟨rfl, ?_, ?_, ?_⟩
  · intro v hv
    simp [loadCart, hv, JVal.isObjType, JVal.isNull]
  · intro v hv hob
    simp [loadCart, hv, hob]
  · intro v hv hob
    have hnull : v.isNull = false := by
      cases v <;> simp_all [JVal.truthy, JVal.isNull]
    simp [loadCart, hv, hob, hnull]

/-- C7 (witness): the amended theorem applied to the truthy non-object
parse result `"x"`: the cart resets and storage is rewritten. -/
theorem c7_witness :
    (JVal.jstr "x").truthy = true ∧ (JVal.jstr "x").isObjType = false ∧
    loadCart (some (JVal.jstr "x")) = (JVal.jobj [], some (JVal.jobj [])) :=
  ⟨by simp [JVal.truthy], rfl,
    c7_amended.2.2.1 (JVal.jstr "x") (by simp [JVal.truthy]) rfl⟩

/-! ### C9: recently-viewed tracker -/

/-- C9 (counterexample): recording the (string) id `""` is a guarded no-op
(`if (!productId) return`), so afterwards the stored list does not have the
recorded id at its front, contradicting the claim for every product id. -/
theorem c9_counterexample :
    addRecentlyViewedId "" ["a"] = ["a"] ∧ ("a" : String) ≠ "" := by
  exact ⟨rfl, by simp⟩

lemma filter_ne_length_of_mem (a : String) (l : List String)
    (hnd : l.Nodup) (h : a ∈ l) :
    (l.filter (fun x => x != a)).length + 1 = l.length := by
  induction l with
  | nil => cases h
  | cons b t ih =>
    rcases List.mem_cons.1 h with rfl | hmem
    · have hna : a ∉ t := (List.nodup_cons.1 hnd).1
      have hft : t.filter (fun x => x != a) = t :=
        List.filter_eq_self.2 (fun x hx => by
          have hxa : x ≠ a := fun heq => hna (heq ▸ hx)
          simp [hxa])
      simp [List.filter_cons, hft]
    · have hnd2 := (List.nodup_cons.1 hnd).2
      have hba : b ≠ a := fun heq => (List.nodup_cons.1 hnd).1 (heq ▸ hmem)
      have := ih hnd2 hmem
      simp only [List.filter_cons, hba, bne_iff_ne, ne_eq,
        not_false_eq_true, if_true, List.length_cons]
      omega

lemma not_mem_filter_ne (a : String) (l : List String) :
    a ∉ l.filter (fun x => x != a) := by
  intro h
  have := (List.mem_filter.1 h).2
  simp at this

/-- C9 (amended): for every nonempty product id and every prior list that
satisfies the data-model invariant (no duplicates, length at most 8),
`addRecentlyViewedId` puts the id at the front, keeps the length at most 8,
produces no duplicates, and recording an already-present id preserves the
length.  For the empty id the operation is a guarded no-op (see the
counterexample). -/
theorem c9_amended (productId : String) (ids : List String)
    (hid : productId ≠ "") (hnd : ids.Nodup) (hlen : ids.length ≤ 8) :
    (addRecentlyViewedId productId ids).head? = some productId ∧
    (addRecentlyViewedId productId ids).length ≤ 8 ∧
    (addRecentlyViewedId productId ids).Nodup ∧
    (productId ∈ ids →
      (addRecentlyViewedId productId ids).length = ids.length) := by
  have hbeq : (productId == "") = false := by simpa using hid
  unfold addRecentlyViewedId
  rw [hbeq]
  simp only [Bool.false_eq_true, if_false]
  refine ⟨?_, ?_, ?_, ?_⟩
  · rw [show (8 : ℕ) = 7 + 1 from rfl, List.take_succ_cons]
    rfl
  · simp only [List.length_take]
    exact min_le_left _ _
  · have hnodup : (productId ::
        ids.filter (fun x => x != productId)).Nodup :=
      List.nodup_cons.2 ⟨not_mem_filter_ne productId ids, hnd.filter _⟩
    exact hnodup.sublist (List.take_sublist _ _)
  · intro hmem
    have hflen := filter_ne_length_of_mem productId ids hnd hmem
    simp only [List.length_take, List.length_cons]
    omega

/-- C9 (witness): the amended theorem applied to recording the
already-present id `"b"` over a valid three-element list. -/
theorem c9_witness :
    ("b" : String) ≠ "" ∧ (["a", "b", "c"] : List String).Nodup ∧
    (["a", "b", "c"] : List String).length ≤ 8 ∧
    ((addRecentlyViewedId "b" ["a", "b", "c"]).head? = some "b" ∧
      (addRecentlyViewedId "b" ["a", "b", "c"]).length ≤ 8 ∧
      (addRecentlyViewedId "b" ["a", "b", "c"]).Nodup ∧
      ("b" ∈ (["a", "b", "c"] : List String) →
        (addRecentlyViewedId "b" ["a", "b", "c"]).length =
          (["a", "b", "c"] : List String).length)) :=
  ⟨by decide, by decide, by decide,
    c9_amended "b" ["a", "b", "c"] (by decide) (by decide) (by decide)⟩

/-! ### C4: the filter/search engine -/

lemma strToLower_empty : strToLower "" = "" := rfl

lemma strContains_empty_left (t : String) (ht : t ≠ "") :
    strContains "" t = false := by
  cases t with
  | mk l =>
    cases l with
    | nil => exact absurd rfl ht
    | cons c cs => rfl

lemma name_clause (p : Product) (term : String) :
    (term == "" ||
        (!(p.name == "") && strContains (strToLower p.name) term)) = true ↔
    (term = "" ∨ strContains (strToLower p.name) term = true) := by
  by_cases ht : term = ""
  · subst ht; simp
  · rw [show (term == "") = false by simpa using ht]
    simp only [Bool.false_or, Bool.and_eq_true, Bool.not_eq_true']
    constructor
    · rintro ⟨-, h⟩
      exact Or.inr h
    · rintro (h | h)
      · exact absurd h ht
      · refine ⟨?_, h⟩
        by_contra hn
        rw [Bool.not_eq_false] at hn
        have hname : p.name = "" := by simpa using hn
        rw [hname, strToLower_empty, strContains_empty_left term ht] at h
        exact absurd h (by simp)

lemma category_clause (p : Product) (cat : String) :
    (cat == "" ||
        (!(p.category == "") && (strToLower p.category == cat))) = true ↔
    (cat = "" ∨ strToLower p.category = cat) := by
  by_cases hc : cat = ""
  · subst hc; simp
  · rw [show (cat == "") = false by simpa using hc]
    simp only [Bool.false_or, Bool.and_eq_true, Bool.not_eq_true',
      beq_iff_eq]
    constructor
    · rintro ⟨-, h⟩
      exact Or.inr h
    · rintro (h | h)
      · exact absurd h hc
      · refine ⟨?_, h⟩
        by_contra hn
        rw [Bool.not_eq_false] at hn
        have hcat : p.category = "" := by simpa using hn
        rw [hcat, strToLower_empty] at h
        exact hc h.symm

lemma brand_clause (p : Product) (brands : List String) :
    (brands.isEmpty ||
        (!(p.brand == "") && brands.contains (strToLower p.brand))) = true ↔
    (brands = [] ∨ (p.brand ≠ "" ∧ strToLower p.brand ∈ brands)) := by
  by_cases hb : brands = []
  · subst hb; simp
  · rw [show brands.isEmpty = false by simpa [List.isEmpty_iff] using hb]
    simp only [Bool.false_or, Bool.and_eq_true, Bool.not_eq_true',
      List.elem_iff, beq_eq_false_iff_ne]
    constructor
    · rintro ⟨h1, h2⟩
      exact Or.inr ⟨h1, h2⟩
    · rintro (h | h)
      · exact absurd h hb
      · exact h

/-- The product of the C4 counterexample: empty brand field. -/
def emptyBrandProduct : Product :=
  { id := "p", name := "N", price := JSNum.fin 10, discount := none,
    category := "", brand := "" }

/-- The filter state of the C4 counterexample: the selected-brand set
contains the empty string. -/
def emptyBrandFS : FilterState :=
  { searchTerm := "", selectedCategory := "", minPrice := 0,
    maxPrice := 100, selectedBrands := [""] }

/-- C4 (counterexample): a product whose `brand` is the empty string, with
the empty string a member of the selected-brand set, satisfies all four of
the claim's predicates yet is hidden by the code (the `product.brand &&`
truthiness guard fails), so the claimed equivalence is false. -/
theorem c4_counterexample :
    matchesFilters emptyBrandProduct emptyBrandFS = false ∧
    specVisiblePred emptyBrandProduct emptyBrandFS := by
  constructor
  · norm_num [matchesFilters, emptyBrandProduct, emptyBrandFS, strTrim,
      strToLower, strContains, calculateDiscountedPrice, discountStep,
      JSNum.isNaN, JSNum.ltB, JSNum.leB, JSNum.geB, JSNum.round2, round2q]
  · refine ⟨Or.inl rfl, Or.inl rfl, ⟨?_, ?_⟩, Or.inr ?_⟩
    · norm_num [emptyBrandProduct, emptyBrandFS, calculateDiscountedPrice,
        discountStep, JSNum.isNaN, JSNum.ltB, JSNum.leB, JSNum.geB,
        JSNum.round2, round2q]
    · norm_num [emptyBrandProduct, emptyBrandFS, calculateDiscountedPrice,
        discountStep, JSNum.isNaN, JSNum.ltB, JSNum.leB, JSNum.geB,
        JSNum.round2, round2q]
    · simp [emptyBrandProduct, emptyBrandFS, strToLower_empty]

/-- The "Laptop Pro X" product of the spec's example scenario 4. -/
def laptopProduct : Product :=
  { id := "a1b2c3d4e5f6", name := "Laptop Pro X", price := JSNum.fin 1099,
    discount := none, category := "electronics", brand := "Brand A" }

/-- The "Coffee Mug" product of the spec's example scenario 4. -/
def mugProduct : Product :=
  { id := "c7", name := "Coffee Mug", price := JSNum.fin 15,
    discount := none, category := "home goods", brand := "Brand B" }

/-- The catalog of the spec's example scenario 4. -/
def exampleCatalog : List Product := [laptopProduct, mugProduct]

/-- The filter state of the spec's example scenario 4: search `"lap"`, no
category, price range `[0, 1200]`, no brands. -/
def exampleFS : FilterState :=
  { searchTerm := "lap", selectedCategory := "", minPrice := 0,
    maxPrice := 1200, selectedBrands := [] }

lemma laptop_matches : matchesFilters laptopProduct exampleFS = true := by
  norm_num [matchesFilters, laptopProduct, exampleFS,
    calculateDiscountedPrice, discountStep, JSNum.isNaN, JSNum.ltB,
    JSNum.leB, JSNum.geB, JSNum.round2, round2q,
    show strTrim (strToLower "lap") = "lap" from rfl,
    show strContains (strToLower "Laptop Pro X") "lap" = true from rfl]
  simp [strToLower_empty]

lemma mug_not_matches : matchesFilters mugProduct exampleFS = false := by
  norm_num [matchesFilters, mugProduct, exampleFS,
    show strTrim (strToLower "lap") = "lap" from rfl,
    show strContains (strToLower "Coffee Mug") "lap" = false from rfl]
  simp

/-- C4 (amended): a product is visible iff the claim's four predicates hold,
with the brand predicate amended to additionally require a non-empty brand
field; and on the spec's example scenario 4 the visible subset is exactly
the "Laptop Pro X" product. -/
theorem c4_amended :
    (∀ (p : Product) (fs : FilterState),
      matchesFilters p fs = true ↔ amendedVisiblePred p fs) ∧
    applyAllFilters exampleCatalog exampleFS = [laptopProduct] := by
  constructor
  · intro p fs
    unfold matchesFilters amendedVisiblePred
    simp only [Bool.and_eq_true]
    rw [name_clause, category_clause, brand_clause]
    tauto
  · simp [applyAllFilters, exampleCatalog, List.filter, laptop_matches,
      mug_not_matches]

/-- C4 (witness): the amended equivalence applied to the laptop product of
the example scenario, whose visibility the code computes as true. -/
theorem c4_witness : amendedVisiblePred laptopProduct exampleFS :=
  (c4_amended.1 laptopProduct exampleFS).mp laptop_matches

/-! ### C5: the overlay coordinator -/

/-- C5 (counterexample): from the initial state, open the quick-view modal
and then the zoom overlay.  `openZoom` does not close other popups (the
`closeAllPopups()` call is commented out in the source), so the quick-view
modal and the zoom overlay are open simultaneously, contradicting the
claimed mutual exclusion. -/
theorem c5_counterexample :
    isOpen (openZoom (openProductModal initOvState)) Overlay.quickView
      = true ∧
    isOpen (openZoom (openProductModal initOvState)) Overlay.zoom = true := by
  exact ⟨rfl, rfl⟩

/-- C5 (amended): every open operation other than the zoom overlay first
closes the topmost open overlay, so from any state with at most one overlay
open (and the shared sidebar overlay flag consistent, as in every reachable
state), opening overlay B among nav, cart, filters, quick-view and auth
results in exactly B open: the previous overlay is closed.  The zoom
overlay instead stacks on top of whatever is open (see the
counterexample). -/
theorem c5_amended (s : OvState) (op : OpenOp)
    (h1 : atMostOneOpen s = true) (h2 : sidebarOverlayConsistent s = true) :
    openList (applyOpen op s) = [targetOverlay op] := by
  rcases s with ⟨a, b, c, d, e, f, g, h, i⟩
  revert h1 h2
  cases op <;> (revert a b c d e f g h i; decide)

/-- C5 (witness): opening the cart sidebar while the auth modal is open
closes the auth modal and leaves exactly the cart sidebar open. -/
theorem c5_witness :
    atMostOneOpen
      { initOvState with authModal := true, authOverlay := true } = true ∧
    sidebarOverlayConsistent
      { initOvState with authModal := true, authOverlay := true } = true ∧
    openList (applyOpen OpenOp.cart
      { initOvState with authModal := true, authOverlay := true }) =
      [targetOverlay OpenOp.cart] :=
  ⟨rfl, rfl,
    c5_amended { initOvState with authModal := true, authOverlay := true }
      OpenOp.cart rfl rfl⟩
